import Mathlib

/-!
Shallow embedding of the messaging subsystem of the Mmondo-web/Prototype
tour-booking application: the data model (`app/models.py`), the message
store (`app/crud/message.py`) and the messaging routes
(`app/routes/messaging.py`).  Timestamps are modelled as naturals; the
database session is modelled as an explicit `State` record threaded
through the operations.
-/

namespace Prototype

/-- Status enum `app.models.MessageStatus`. -/
inductive MessageStatus where
  | unread
  | read
  | archived
deriving DecidableEq

/-- Row of the `messages` table (`app.models.Message`). -/
structure Message where
  id : Nat
  sender_id : Nat
  receiver_id : Nat
  booking_id : Option Nat
  parent_message_id : Option Nat
  subject : Option String
  content : String
  status : MessageStatus
  created_at : Nat
  updated_at : Nat
deriving DecidableEq

/-- Role enum `app.models.UserRole`. -/
inductive UserRole where
  | customer
  | admin
  | superadmin
deriving DecidableEq

/-- Fields of `app.models.User` that the messaging subsystem reads. -/
structure User where
  id : Nat
  email : String
  full_name : Option String
  is_admin : Bool
  is_superadmin : Bool
deriving DecidableEq

/-- Live property `User.role` of `app/models.py`: derived from the two
boolean flags (it shadows the persisted column of the same name). -/
def User.role (u : User) : UserRole :=
  if u.is_superadmin then UserRole.superadmin
  else if u.is_admin then UserRole.admin
  else UserRole.customer

/-- Fields of `app.models.Booking` read by the messaging routes.  The
booking owner column is `user_id`; the model defines no `customer_id` and
no `booking_reference` attribute. -/
structure Booking where
  id : Nat
  user_id : Nat
deriving DecidableEq

/-- Request body `app.schemas.message.MessageCreate`. -/
structure MessageCreate where
  receiver_id : Nat
  booking_id : Option Nat
  parent_message_id : Option Nat
  subject : Option String
  content : String
deriving DecidableEq

/-- Relevant database state: the rows of the three tables the messaging
code touches, plus the next fresh primary key for `messages`. -/
structure State where
  users : List User
  bookings : List Booking
  messages : List Message
  nextId : Nat
deriving DecidableEq

/-- Embeds `MessageCRUD.get_message`: the first row of `messages` with the
given id. -/
def getMessage (st : State) (message_id : Nat) : Option Message :=
  st.messages.find? (fun m => decide (m.id = message_id))

/-- Embeds `MessageCRUD.create`: insert a fresh `unread` message; the
`created_at` and `updated_at` column defaults both fire at insert time. -/
def createMessage (st : State) (sender_id : Nat) (message : MessageCreate)
    (now : Nat) : Message × State :=
  let db_message : Message :=
    { id := st.nextId,
      sender_id := sender_id,
      receiver_id := message.receiver_id,
      booking_id := message.booking_id,
      parent_message_id := message.parent_message_id,
      subject := message.subject,
      content := message.content,
      status := MessageStatus.unread,
      created_at := now,
      updated_at := now }
  (db_message,
   { st with messages := st.messages ++ [db_message], nextId := st.nextId + 1 })

/-- Ordering used by `order_by(Message.created_at.desc())`. -/
def createdDesc (a b : Message) : Prop := b.created_at ≤ a.created_at

instance : DecidableRel createdDesc := fun a b => Nat.decLe b.created_at a.created_at

/-- Embeds `MessageCRUD.get_user_messages`: messages the user sent or
received, newest-created first, with offset/limit pagination. -/
def getUserMessages (st : State) (user_id skip limit : Nat) : List Message :=
  ((((st.messages.filter
        (fun m => decide (m.sender_id = user_id ∨ m.receiver_id = user_id))).insertionSort
          createdDesc).drop skip).take limit)

/-- Embeds `MessageCRUD.get_unread_count`. -/
def getUnreadCount (st : State) (user_id : Nat) : Nat :=
  st.messages.countP
    (fun m => decide (m.receiver_id = user_id ∧ m.status = MessageStatus.unread))

/-- Updates the first list element satisfying `p` (the ORM mutates the one
row object returned by `get_message`). -/
def updateFirst (p : α → Bool) (f : α → α) : List α → List α
  | [] => []
  | a :: as => if p a then f a :: as else a :: updateFirst p f as

/-- Net effect on a row of the `message.status = MessageStatus.READ`
assignment followed by the commit: when the status is already `read` the
ORM flush detects no net change and emits no UPDATE, so `updated_at`
keeps its value; otherwise the UPDATE fires the `updated_at` `onupdate`
default. -/
def readStamp (now : Nat) (m : Message) : Message :=
  if m.status = MessageStatus.read then m
  else { m with status := MessageStatus.read, updated_at := now }

/-- Embeds `MessageCRUD.mark_as_read`: the status is set to `read` only
when the caller is the receiver (with the net-change flush semantics of
`readStamp`).  The found — and refreshed — message is returned even when
the caller is not the receiver; `none` is returned only when no row with
that id exists. -/
def markAsRead (st : State) (message_id user_id now : Nat) :
    Option Message × State :=
  match getMessage st message_id with
  | none => (none, st)
  | some message =>
    if message.receiver_id = user_id then
      let msgs := updateFirst (fun m => decide (m.id = message_id))
        (readStamp now) st.messages
      (some (readStamp now message), { st with messages := msgs })
    else (some message, st)

/-- Row predicate of the bulk UPDATE in
`MessageCRUD.mark_conversation_as_read`. -/
def conversationUnread (user1_id user2_id : Nat) (m : Message) : Bool :=
  decide (m.receiver_id = user1_id ∧ m.sender_id = user2_id ∧
          m.status = MessageStatus.unread)

/-- Embeds `MessageCRUD.mark_conversation_as_read`: one bulk UPDATE whose
Core execution applies the `updated_at` `onupdate` default to every
affected row; the return value is the number of matched rows. -/
def markConversationRead (st : State) (user1_id user2_id now : Nat) :
    Nat × State :=
  (st.messages.countP (conversationUnread user1_id user2_id),
   { st with messages := st.messages.map (fun m =>
      if conversationUnread user1_id user2_id m then
        { m with status := MessageStatus.read, updated_at := now }
      else m) })

/-- Embeds `MessageCRUD.delete_message`: deletes the found row when the
caller is sender or receiver; on flush the ORM nulls the
`parent_message_id` of the replies of the deleted row (the `replies`
relationship carries no delete cascade), and that FK-nulling UPDATE fires
the `updated_at` `onupdate` default on each orphaned reply. -/
def deleteMessage (st : State) (message_id user_id now : Nat) : Bool × State :=
  match getMessage st message_id with
  | none => (false, st)
  | some message =>
    if message.sender_id = user_id ∨ message.receiver_id = user_id then
      let msgs := (st.messages.eraseP (fun m => decide (m.id = message_id))).map
        (fun m => if m.parent_message_id = some message_id
                  then { m with parent_message_id := none, updated_at := now }
                  else m)
      (true, { st with messages := msgs })
    else (false, st)

/-- Number of unread messages from `sender_id` sitting in the inbox of
`receiver_id` — the quantity the bulk read-marking acts on. -/
def countUnreadFrom (st : State) (receiver_id sender_id : Nat) : Nat :=
  st.messages.countP (conversationUnread receiver_id sender_id)

/-- Outcome taxonomy of the messaging routes: FastAPI `HTTPException` with
status 404 or 403, pydantic request-validation failure, an uncaught Python
`AttributeError` (HTTP 500) naming the missing attribute, and the uncaught
pydantic error raised while building the `MessageWithUsers` response
(HTTP 500): its `status: MessageStatusEnum` field rejects the
`models.MessageStatus` member carried by the ORM row, since by-value
lookup of a plain-`Enum` member in a different `str`-based enum raises
`ValueError`. -/
inductive SendError where
  | notFound (detail : String)
  | permissionError (detail : String)
  | validationError
  | attributeError (attr : String)
  | responseValidationError
deriving DecidableEq

deriving instance DecidableEq for Except

/-- Python truthiness of the optional `booking_id`
(`if message.booking_id:`): `None` and `0` are falsy. -/
def optTruthy : Option Nat → Bool
  | none => false
  | some b => decide (b ≠ 0)

/-- Pydantic validation of `MessageCreate`: the only value constraint is
`subject: Field(None, max_length=255)`; `content: str` admits the empty
string. -/
def messageCreateValid (message : MessageCreate) : Bool :=
  match message.subject with
  | none => true
  | some s => decide (s.length ≤ 255)

/-- Booking-scoped part of route `send_message`: booking lookup and the
role gate, run only when the supplied `booking_id` is truthy.  The
customer branch evaluates `booking.customer_id`, an attribute `Booking`
does not define, so it raises `AttributeError` before any ownership
comparison. -/
def bookingGate (st : State) (current_user receiver : User)
    (message : MessageCreate) : Option SendError :=
  if optTruthy message.booking_id then
    match st.bookings.find? (fun b => decide (message.booking_id = some b.id)) with
    | none => some (SendError.notFound "Booking not found")
    | some _booking =>
      if current_user.role = UserRole.customer then
        some (SendError.attributeError "customer_id")
      else if current_user.role = UserRole.superadmin then
        if ¬ (receiver.role = UserRole.admin ∨ receiver.role = UserRole.superadmin) then
          some (SendError.permissionError
            "Superadmins can only message admins or other superadmins")
        else none
      else if current_user.role = UserRole.admin then
        if receiver.role ≠ UserRole.superadmin then
          some (SendError.permissionError "Admins can only message superadmins")
        else none
      else none
  else none

/-- Embeds route `send_message` (`POST /api/messages/`): receiver lookup,
optional booking lookup and role gate, create, response assembly.  The
response assembly always fails after the row was committed: with a truthy
`booking_id` the `booking.booking_reference` keyword argument — an
attribute `Booking` does not define — raises first, while its evaluation
is skipped on the booking-less path, where the `MessageWithUsers`
construction itself then raises on the status enum mismatch.  The pair
therefore returns the updated state on both post-create failures, and the
`Except.ok` branch of the result type is never reached. -/
def sendMessage (st : State) (current_user : User) (message : MessageCreate)
    (now : Nat) : Except SendError Message × State :=
  match st.users.find? (fun u => decide (u.id = message.receiver_id)) with
  | none => (Except.error (SendError.notFound "Receiver not found"), st)
  | some receiver =>
    match bookingGate st current_user receiver message with
    | some e => (Except.error e, st)
    | none =>
      let st' := (createMessage st current_user.id message now).2
      if optTruthy message.booking_id then
        (Except.error (SendError.attributeError "booking_reference"), st')
      else
        (Except.error SendError.responseValidationError, st')

/-- Full route entry for sending: pydantic validation of the request body,
then the handler. -/
def sendMessageApi (st : State) (current_user : User) (message : MessageCreate)
    (now : Nat) : Except SendError Message × State :=
  if messageCreateValid message then sendMessage st current_user message now
  else (Except.error SendError.validationError, st)

/-- Message-selection logic of route `get_messages` (`GET /api/messages/`):
fetch the caller page, then keep only unread received messages when
`unread_only` is requested (display enrichment omitted). -/
def getMessagesRoute (st : State) (user_id skip limit : Nat)
    (unread_only : Bool) : List Message :=
  let messages := getUserMessages st user_id skip limit
  if unread_only then
    messages.filter
      (fun m => decide (m.status = MessageStatus.unread ∧ m.receiver_id = user_id))
  else messages

/-! Concrete fixtures used by witnesses and counterexamples. -/

/-- Sample customer (both boolean role flags off). -/
def alice : User :=
  { id := 1, email := "alice@example.com", full_name := some "Alice",
    is_admin := false, is_superadmin := false }

/-- Sample superadmin. -/
def rootAdmin : User :=
  { id := 2, email := "root@example.com", full_name := some "Root",
    is_admin := false, is_superadmin := true }

/-- Second sample customer, owner of nothing. -/
def bob : User :=
  { id := 3, email := "bob@example.com", full_name := none,
    is_admin := false, is_superadmin := false }

/-- Booking-less sample message. -/
def mkMessage (id sender receiver created : Nat) (stat : MessageStatus) : Message :=
  { id := id, sender_id := sender, receiver_id := receiver, booking_id := none,
    parent_message_id := none, subject := none, content := "hi", status := stat,
    created_at := created, updated_at := 0 }

/-! Helper lemmas about `updateFirst` and `countP`. -/

theorem find?_updateFirst {α : Type} (p : α → Bool) (f : α → α) (l : List α)
    (a : α) (hf : p (f a) = true) :
    l.find? p = some a → (updateFirst p f l).find? p = some (f a) := by
  induction l with
  | nil => intro h; simp at h
  | cons b bs ih =>
    intro h
    by_cases hb : p b = true
    · rw [List.find?_cons_of_pos _ hb] at h
      cases h
      simp [updateFirst, hb, List.find?_cons_of_pos _ hf]
    · rw [List.find?_cons_of_neg _ (by simpa using hb)] at h
      simp [updateFirst, hb, List.find?_cons_of_neg _ (by simpa using hb), ih h]

theorem mem_updateFirst {α : Type} (p : α → Bool) (f : α → α) (l : List α)
    (a : α) : a ∈ updateFirst p f l → a ∈ l ∨ ∃ b ∈ l, a = f b := by
  induction l with
  | nil => intro h; simp [updateFirst] at h
  | cons b bs ih =>
    intro h
    by_cases hb : p b = true
    · simp only [updateFirst, if_pos hb, List.mem_cons] at h
      rcases h with h | h
      · exact Or.inr ⟨b, List.mem_cons_self b bs, h⟩
      · exact Or.inl (List.mem_cons_of_mem _ h)
    · simp only [updateFirst, if_neg hb, List.mem_cons] at h
      rcases h with h | h
      · exact Or.inl (h ▸ List.mem_cons_self b bs)
      · rcases ih h with h' | ⟨c, hc, hc'⟩
        · exact Or.inl (List.mem_cons_of_mem _ h')
        · exact Or.inr ⟨c, List.mem_cons_of_mem _ hc, hc'⟩

theorem countP_map_frame {α : Type} (p : α → Bool) (f : α → α) (l : List α)
    (h : ∀ a ∈ l, p (f a) = p a) :
    (l.map f).countP p = l.countP p := by
  rw [List.countP_map]
  exact List.countP_congr (fun a ha => by simp [Function.comp, h a ha])

theorem countP_and_not {α : Type} (p q : α → Bool) (l : List α)
    (h : ∀ a ∈ l, q a = true → p a = true) :
    l.countP (fun a => p a && !q a) = l.countP p - l.countP q := by
  induction l with
  | nil => rfl
  | cons b bs ih =>
    have hbs : ∀ a ∈ bs, q a = true → p a = true :=
      fun a ha => h a (List.mem_cons_of_mem _ ha)
    have hle : bs.countP q ≤ bs.countP p := List.countP_mono_left hbs
    by_cases hq : q b = true
    · have hp : p b = true := h b (List.mem_cons_self b bs) hq
      simp [List.countP_cons, hp, hq, ih hbs]
    · by_cases hp : p b = true
      · simp [List.countP_cons, hp, hq, ih hbs]
        omega
      · simp [List.countP_cons, hp, hq, ih hbs]

/-- Single-message state for exercising `mark_as_read`: message 1 was sent
by user 5 to user 2. -/
def stC2 : State :=
  { users := [], bookings := [],
    messages := [mkMessage 1 5 2 10 MessageStatus.unread], nextId := 2 }

/-- C2 (amended): `mark_as_read` sets the status of the addressed message
to read exactly when the caller is the receiver — stamping `updated_at`
only when the status actually changes, since an already-read row nets no
UPDATE; a caller who is not the receiver gets the message back unchanged —
a non-None result — with the state untouched; `None` is returned only when
no message with that id exists. -/
theorem c2_mark_read_receiver_only (st : State) (mid uid now : Nat) :
    (getMessage st mid = none → markAsRead st mid uid now = (none, st)) ∧
    (∀ m, getMessage st mid = some m → m.receiver_id ≠ uid →
      markAsRead st mid uid now = (some m, st)) ∧
    (∀ m, getMessage st mid = some m → m.receiver_id = uid →
      m.status ≠ MessageStatus.read →
      (markAsRead st mid uid now).1 =
        some { m with status := MessageStatus.read, updated_at := now } ∧
      getMessage (markAsRead st mid uid now).2 mid =
        some { m with status := MessageStatus.read, updated_at := now }) ∧
    (∀ m, getMessage st mid = some m → m.receiver_id = uid →
      m.status = MessageStatus.read →
      (markAsRead st mid uid now).1 = some m ∧
      getMessage (markAsRead st mid uid now).2 mid = some m) := by
  refine ⟨?_, ?_, ?_, ?_⟩
  · intro h
    simp [markAsRead, h]
  · intro m hm hne
    simp [markAsRead, hm, hne]
  · intro m hm he hs
    subst he
    have hid : m.id = mid := by simpa using List.find?_some hm
    have hm' : st.messages.find? (fun mm : Message => decide (mm.id = mid)) = some m := hm
    have key := find?_updateFirst (fun mm : Message => decide (mm.id = mid))
      (readStamp now) st.messages m
      (by by_cases hr : m.status = MessageStatus.read <;> simp [readStamp, hr, hid]) hm'
    constructor
    · simp [markAsRead, hm, readStamp, hs]
    · simp [markAsRead, hm]
      simpa [readStamp, hs] using key
  · intro m hm he hs
    subst he
    have hid : m.id = mid := by simpa using List.find?_some hm
    have hm' : st.messages.find? (fun mm : Message => decide (mm.id = mid)) = some m := hm
    have key := find?_updateFirst (fun mm : Message => decide (mm.id = mid))
      (readStamp now) st.messages m (by simp [readStamp, hs, hid]) hm'
    constructor
    · simp [markAsRead, hm, readStamp, hs]
    · simp [markAsRead, hm]
      simpa [readStamp, hs] using key

/-- C2 counterexample to the claim as stated: user 3 is neither sender nor
receiver of message 1, yet `mark_as_read` returns the message — not the
None result the claim describes.  The state is indeed unchanged. -/
theorem c2_counterexample :
    (markAsRead stC2 1 3 9).1 ≠ none ∧ (markAsRead stC2 1 3 9).2 = stC2 := by
  decide

/-- C2 witness: the receiver (user 2) marking the unread message 1 as
read. -/
theorem c2_witness :
    (markAsRead stC2 1 2 9).1 =
      some { mkMessage 1 5 2 10 MessageStatus.unread with
             status := MessageStatus.read, updated_at := 9 } ∧
    getMessage (markAsRead stC2 1 2 9).2 1 =
      some { mkMessage 1 5 2 10 MessageStatus.unread with
             status := MessageStatus.read, updated_at := 9 } :=
  (c2_mark_read_receiver_only stC2 1 2 9).2.2.1
    (mkMessage 1 5 2 10 MessageStatus.unread) (by decide) (by decide) (by decide)

/-- C6: a successful create yields an unread message with both timestamps
set to the insert time and all requested fields, and looking the fresh id
up returns exactly that message. -/
theorem c6_create_spec (st : State) (sender : Nat) (payload : MessageCreate)
    (now : Nat) (hfresh : ∀ x ∈ st.messages, x.id ≠ st.nextId) :
    (createMessage st sender payload now).1.status = MessageStatus.unread ∧
    (createMessage st sender payload now).1.created_at = now ∧
    (createMessage st sender payload now).1.updated_at = now ∧
    (createMessage st sender payload now).1.sender_id = sender ∧
    (createMessage st sender payload now).1.receiver_id = payload.receiver_id ∧
    (createMessage st sender payload now).1.booking_id = payload.booking_id ∧
    (createMessage st sender payload now).1.parent_message_id =
      payload.parent_message_id ∧
    (createMessage st sender payload now).1.subject = payload.subject ∧
    (createMessage st sender payload now).1.content = payload.content ∧
    getMessage (createMessage st sender payload now).2
        (createMessage st sender payload now).1.id =
      some (createMessage st sender payload now).1 := by
  refine ⟨rfl, rfl, rfl, rfl, rfl, rfl, rfl, rfl, rfl, ?_⟩
  have hnone : st.messages.find? (fun m => decide (m.id = st.nextId)) = none :=
    List.find?_eq_none.mpr (fun x hx => by simp [hfresh x hx])
  simp [getMessage, createMessage, List.find?_append, hnone]

/-- Empty database state. -/
def stEmpty : State := { users := [], bookings := [], messages := [], nextId := 1 }

/-- Sample creation payload. -/
def payloadC6 : MessageCreate :=
  { receiver_id := 2, booking_id := none, parent_message_id := none,
    subject := some "Hi", content := "hello" }

/-- C6 witness: creating a message in the empty state. -/
theorem c6_witness :
    (createMessage stEmpty 1 payloadC6 7).1.status = MessageStatus.unread ∧
    (createMessage stEmpty 1 payloadC6 7).1.created_at = 7 ∧
    (createMessage stEmpty 1 payloadC6 7).1.updated_at = 7 ∧
    (createMessage stEmpty 1 payloadC6 7).1.sender_id = 1 ∧
    (createMessage stEmpty 1 payloadC6 7).1.receiver_id = payloadC6.receiver_id ∧
    (createMessage stEmpty 1 payloadC6 7).1.booking_id = payloadC6.booking_id ∧
    (createMessage stEmpty 1 payloadC6 7).1.parent_message_id =
      payloadC6.parent_message_id ∧
    (createMessage stEmpty 1 payloadC6 7).1.subject = payloadC6.subject ∧
    (createMessage stEmpty 1 payloadC6 7).1.content = payloadC6.content ∧
    getMessage (createMessage stEmpty 1 payloadC6 7).2
        (createMessage stEmpty 1 payloadC6 7).1.id =
      some (createMessage stEmpty 1 payloadC6 7).1 :=
  c6_create_spec stEmpty 1 payloadC6 7 (by decide)

/-- C7: with no booking id supplied, the role table is never consulted and
the send handler can never fail with a `PermissionError`, whatever the
roles of sender and receiver: either the receiver is missing (404, store
unchanged) or the message is committed — after which the request dies in
response serialization, with the created row persisting. -/
theorem c7_bookingless_unchecked (st : State) (current_user : User)
    (payload : MessageCreate) (now : Nat) (h : payload.booking_id = none) :
    (∀ detail, (sendMessage st current_user payload now).1 ≠
        Except.error (SendError.permissionError detail)) ∧
    ((sendMessage st current_user payload now).1 =
        Except.error (SendError.notFound "Receiver not found") ∧
      (sendMessage st current_user payload now).2 = st ∨
     (sendMessage st current_user payload now).1 =
        Except.error SendError.responseValidationError ∧
      (sendMessage st current_user payload now).2.messages =
        st.messages ++ [(createMessage st current_user.id payload now).1]) := by
  cases hfind : st.users.find? (fun u => decide (u.id = payload.receiver_id)) with
  | none =>
    constructor
    · intro d
      simp [sendMessage, hfind]
    · left
      constructor <;> simp [sendMessage, hfind]
  | some r =>
    constructor
    · intro d
      simp [sendMessage, hfind, bookingGate, h, optTruthy]
    · right
      constructor <;>
        simp [sendMessage, hfind, bookingGate, h, optTruthy, createMessage]

/-- State with two customers, for the booking-less send. -/
def stC7 : State := { users := [alice, bob], bookings := [], messages := [], nextId := 1 }

/-- Booking-less payload from a customer to a customer — a role pair the
gate would reject if a booking were referenced. -/
def payloadC7 : MessageCreate :=
  { receiver_id := 3, booking_id := none, parent_message_id := none,
    subject := none, content := "yo" }

/-- C7 witness: a customer-to-customer booking-less send is not gated. -/
theorem c7_witness :
    (sendMessage stC7 alice payloadC7 4).1 ≠
      Except.error (SendError.permissionError "Customers can only message superadmins") ∧
    ((sendMessage stC7 alice payloadC7 4).1 =
        Except.error (SendError.notFound "Receiver not found") ∧
      (sendMessage stC7 alice payloadC7 4).2 = stC7 ∨
     (sendMessage stC7 alice payloadC7 4).1 =
        Except.error SendError.responseValidationError ∧
      (sendMessage stC7 alice payloadC7 4).2.messages =
        stC7.messages ++ [(createMessage stC7 alice.id payloadC7 4).1]) :=
  ⟨(c7_bookingless_unchecked stC7 alice payloadC7 4 (by decide)).1
      "Customers can only message superadmins",
   (c7_bookingless_unchecked stC7 alice payloadC7 4 (by decide)).2⟩

/-- Two-message state for the pagination window: message 2 (newer) was
sent by user 1, message 1 (older) is unread in the inbox of user 1. -/
def stC10 : State :=
  { users := [], bookings := [],
    messages := [mkMessage 2 1 2 20 MessageStatus.unread,
                 mkMessage 1 2 1 10 MessageStatus.unread], nextId := 3 }

/-- C10: the unread-only filter of the list-my-messages route runs on the
already-paginated page — the result is the unread received subset of the
`[skip, skip+limit)` window of the newest-first listing — and concretely a
page can come back empty although an older unread message exists. -/
theorem c10_filter_after_pagination :
    (∀ (st : State) (uid skip limit : Nat),
      getMessagesRoute st uid skip limit true =
        ((((st.messages.filter
              (fun m => decide (m.sender_id = uid ∨ m.receiver_id = uid))).insertionSort
                createdDesc).drop skip).take limit).filter
          (fun m => decide (m.status = MessageStatus.unread ∧ m.receiver_id = uid))) ∧
    getMessagesRoute stC10 1 0 1 true = [] ∧
    getUnreadCount stC10 1 = 1 := by
  refine ⟨fun st uid skip limit => rfl, by decide, by decide⟩

theorem find?_eraseP_nodup (l : List Message) (v : Nat)
    (hnd : (l.map Message.id).Nodup) :
    (l.eraseP (fun m => decide (m.id = v))).find?
      (fun m => decide (m.id = v)) = none := by
  induction l with
  | nil => rfl
  | cons b bs ih =>
    rw [List.map_cons, List.nodup_cons] at hnd
    obtain ⟨hb, hbs⟩ := hnd
    by_cases hv : b.id = v
    · rw [List.eraseP_cons_of_pos (by simp [hv])]
      refine List.find?_eq_none.mpr (fun x hx => ?_)
      simp only [decide_eq_true_eq]
      intro hxv
      exact hb (by rw [hv, ← hxv]; exact List.mem_map_of_mem Message.id hx)
    · rw [List.eraseP_cons_of_neg (by simp [hv]),
          List.find?_cons_of_neg _ (by simp [hv])]
      exact ih hbs

/-- C9: `delete_message` removes the addressed message exactly when the
caller is its sender or receiver — any other caller (or a missing id) gets
`false` with the store unchanged — and after a successful delete the id no
longer resolves. -/
theorem c9_delete_participants_only (st : State) (mid uid now : Nat)
    (hnd : (st.messages.map Message.id).Nodup) :
    (getMessage st mid = none → deleteMessage st mid uid now = (false, st)) ∧
    (∀ m, getMessage st mid = some m →
      ¬(m.sender_id = uid ∨ m.receiver_id = uid) →
      deleteMessage st mid uid now = (false, st)) ∧
    (∀ m, getMessage st mid = some m →
      (m.sender_id = uid ∨ m.receiver_id = uid) →
      (deleteMessage st mid uid now).1 = true ∧
      getMessage (deleteMessage st mid uid now).2 mid = none) := by
  refine ⟨?_, ?_, ?_⟩
  · intro h
    simp [deleteMessage, h]
  · intro m hm hno
    simp [deleteMessage, hm, hno]
  · intro m hm hyes
    constructor
    · simp [deleteMessage, hm, hyes]
    · simp only [deleteMessage, hm, if_pos hyes]
      show ((st.messages.eraseP (fun m => decide (m.id = mid))).map
          (fun m => if m.parent_message_id = some mid
                    then { m with parent_message_id := none, updated_at := now }
                    else m)).find?
        (fun m => decide (m.id = mid)) = none
      rw [List.find?_map]
      have hcomp : ((fun mm : Message => decide (mm.id = mid)) ∘
          (fun m => if m.parent_message_id = some mid
                    then { m with parent_message_id := none, updated_at := now }
                    else m)) =
          (fun mm : Message => decide (mm.id = mid)) := by
        funext x
        by_cases hx : x.parent_message_id = some mid <;> simp [hx]
      rw [hcomp, find?_eraseP_nodup st.messages mid hnd]
      rfl

/-- Single-message state for the delete claim: message 1 from user 5 to
user 2. -/
def stC9 : State :=
  { users := [], bookings := [],
    messages := [mkMessage 1 5 2 10 MessageStatus.unread], nextId := 2 }

/-- C9 witness: the sender (user 5) deletes message 1 and the id stops
resolving. -/
theorem c9_witness :
    (deleteMessage stC9 1 5 7).1 = true ∧
    getMessage (deleteMessage stC9 1 5 7).2 1 = none :=
  (c9_delete_participants_only stC9 1 5 7 (by decide)).2.2
    (mkMessage 1 5 2 10 MessageStatus.unread) (by decide) (by decide)

/-- Booking 42, owned (via the `user_id` column) by user 1. -/
def bookingC1 : Booking := { id := 42, user_id := 1 }

/-- State for the customer-messaging-about-booking scenarios: customer
alice (id 1) owns booking 42, rootAdmin (id 2) is a superadmin, bob (id 3)
is a customer owning nothing. -/
def stC1 : State :=
  { users := [alice, rootAdmin, bob], bookings := [bookingC1],
    messages := [], nextId := 1 }

/-- Payload of the spec authorization scenarios: message rootAdmin about
booking 42. -/
def payloadC1 : MessageCreate :=
  { receiver_id := 2, booking_id := some 42, parent_message_id := none,
    subject := none, content := "hello" }

/-- C1 (code bug): every customer create that references a booking — the
owning customer of scenario 1 as much as the non-owner of scenario 3 —
runs into the `booking.customer_id` attribute access, which `Booking` does
not define (its owner column is `user_id`), so neither the permitted
create nor the `PermissionError` of the claim can happen: the handler
raises `AttributeError` and no message is created. -/
theorem c1_customer_booking_attribute_error :
    (sendMessage stC1 alice payloadC1 5).1 =
      Except.error (SendError.attributeError "customer_id") ∧
    (sendMessage stC1 alice payloadC1 5).2 = stC1 ∧
    (sendMessage stC1 bob payloadC1 5).1 =
      Except.error (SendError.attributeError "customer_id") ∧
    (sendMessage stC1 bob payloadC1 5).2 = stC1 := by
  decide

/-- State with only the superadmin receiver on file. -/
def stC3 : State :=
  { users := [rootAdmin], bookings := [], messages := [], nextId := 1 }

/-- Payload with empty content. -/
def payloadC3 : MessageCreate :=
  { receiver_id := 2, booking_id := none, parent_message_id := none,
    subject := none, content := "" }

/-- Payload referencing booking 42, which does not exist in `stC3`. -/
def payloadC3b : MessageCreate :=
  { receiver_id := 2, booking_id := some 42, parent_message_id := none,
    subject := none, content := "hi" }

/-- C3 counterexample to the claim as stated: a create with empty content
passes request validation and its row is committed — the request only dies
afterwards while serializing the response, so a message very much is
created. -/
theorem c3_counterexample :
    messageCreateValid payloadC3 = true ∧
    (sendMessageApi stC3 alice payloadC3 5).1 =
      Except.error SendError.responseValidationError ∧
    (sendMessageApi stC3 alice payloadC3 5).2.messages =
      [{ id := 1, sender_id := 1, receiver_id := 2,
         booking_id := none, parent_message_id := none,
         subject := none, content := "",
         status := MessageStatus.unread, created_at := 5,
         updated_at := 5 }] := by
  decide

/-- C3 (amended): pydantic validation is independent of the content field
— empty content is accepted — and a validated create whose booking id is
supplied and nonzero but references no existing booking fails with a
not-found error, leaving the store unchanged. -/
theorem c3_validation_and_missing_booking :
    (∀ (payload : MessageCreate) (c₁ c₂ : String),
      messageCreateValid { payload with content := c₁ } =
        messageCreateValid { payload with content := c₂ }) ∧
    (∀ (st : State) (u : User) (payload : MessageCreate) (now b : Nat),
      messageCreateValid payload = true →
      payload.booking_id = some b → b ≠ 0 →
      (∀ bk ∈ st.bookings, bk.id ≠ b) →
      ∃ d, (sendMessageApi st u payload now).1 =
             Except.error (SendError.notFound d) ∧
           (sendMessageApi st u payload now).2 = st) := by
  constructor
  · intro payload c₁ c₂
    rfl
  · intro st u payload now b hv hb hb0 hnone
    have hgate : st.bookings.find?
        (fun bk => decide (payload.booking_id = some bk.id)) = none :=
      List.find?_eq_none.mpr (fun bk hbk => by
        simp only [decide_eq_true_eq, hb, Option.some_inj]
        exact fun hEq => hnone bk hbk hEq.symm)
    cases hfind : st.users.find? (fun us => decide (us.id = payload.receiver_id)) with
    | none =>
      refine ⟨"Receiver not found", ?_, ?_⟩ <;>
        simp [sendMessageApi, hv, sendMessage, hfind]
    | some r =>
      have htruthy : optTruthy payload.booking_id = true := by
        simp [optTruthy, hb, hb0]
      refine ⟨"Booking not found", ?_, ?_⟩ <;>
        simp [sendMessageApi, hv, sendMessage, hfind, bookingGate, htruthy, hgate]

/-- C3 witness: sending a validated message about the nonexistent booking
42 fails with a not-found error and creates nothing. -/
theorem c3_witness :
    ∃ d, (sendMessageApi stC3 alice payloadC3b 5).1 =
           Except.error (SendError.notFound d) ∧
         (sendMessageApi stC3 alice payloadC3b 5).2 = stC3 :=
  c3_validation_and_missing_booking.2 stC3 alice payloadC3b 5 42
    (by decide) rfl (by decide) (by decide)

theorem countP_read_update (l : List Message) (a b now : Nat) :
    (l.map (fun m => if conversationUnread a b m
        then { m with status := MessageStatus.read, updated_at := now }
        else m)).countP
      (fun m => decide (m.receiver_id = a ∧ m.status = MessageStatus.unread)) =
    l.countP (fun m => decide (m.receiver_id = a ∧ m.status = MessageStatus.unread))
      - l.countP (conversationUnread a b) := by
  rw [List.countP_map]
  have h1 : l.countP ((fun m : Message =>
      decide (m.receiver_id = a ∧ m.status = MessageStatus.unread)) ∘
        (fun m => if conversationUnread a b m
          then { m with status := MessageStatus.read, updated_at := now }
          else m)) =
      l.countP (fun m =>
        decide (m.receiver_id = a ∧ m.status = MessageStatus.unread) &&
          !(conversationUnread a b m)) := by
    refine List.countP_congr ?_
    intro x _
    cases hc : conversationUnread a b x with
    | true => simp [Function.comp, hc]
    | false => simp [Function.comp, hc]
  rw [h1]
  refine countP_and_not _ _ l ?_
  intro x _ hq
  have hx : x.receiver_id = a ∧ x.sender_id = b ∧
      x.status = MessageStatus.unread := by
    simpa [conversationUnread] using hq
  simp [hx.1, hx.2.2]

/-- C8: the bulk conversation read-marking returns the number of rows it
transitioned, zeroes the B-to-A unread count, lowers the receiver's total
unread count by exactly that number, and leaves every other
(receiver, sender) unread count — and every other user's total — as it
was. -/
theorem c8_mark_conversation_read (st : State) (a b now : Nat) :
    (markConversationRead st a b now).1 = countUnreadFrom st a b ∧
    countUnreadFrom (markConversationRead st a b now).2 a b = 0 ∧
    (∀ r s, ¬(r = a ∧ s = b) →
      countUnreadFrom (markConversationRead st a b now).2 r s =
        countUnreadFrom st r s) ∧
    getUnreadCount (markConversationRead st a b now).2 a =
      getUnreadCount st a - countUnreadFrom st a b ∧
    (∀ c, c ≠ a →
      getUnreadCount (markConversationRead st a b now).2 c =
        getUnreadCount st c) := by
  refine ⟨rfl, ?_, ?_, ?_, ?_⟩
  · simp only [markConversationRead, countUnreadFrom]
    refine List.countP_eq_zero.mpr ?_
    intro x hx
    rcases List.mem_map.mp hx with ⟨y, _, rfl⟩
    cases hc : conversationUnread a b y with
    | true => simp [conversationUnread, hc]
    | false => simp [hc]
  · intro r s hne
    simp only [markConversationRead, countUnreadFrom]
    refine countP_map_frame _ _ _ ?_
    intro x _
    cases hc : conversationUnread a b x with
    | false => simp [hc]
    | true =>
      have hx1 : x.receiver_id = a ∧ x.sender_id = b ∧
          x.status = MessageStatus.unread := by
        simpa [conversationUnread] using hc
      have hnot : ¬(x.receiver_id = r ∧ x.sender_id = s ∧
          x.status = MessageStatus.unread) := by
        rintro ⟨h1, h2, _⟩
        exact hne ⟨h1.symm.trans hx1.1, h2.symm.trans hx1.2.1⟩
      simp [conversationUnread, hc, hnot]
  · simp only [markConversationRead, getUnreadCount, countUnreadFrom]
    exact countP_read_update st.messages a b now
  · intro c hc
    simp only [markConversationRead, getUnreadCount]
    refine countP_map_frame _ _ _ ?_
    intro x _
    cases hcc : conversationUnread a b x with
    | false => simp [hcc]
    | true =>
      have hx1 : x.receiver_id = a := by
        have hx := hcc
        simp only [conversationUnread, decide_eq_true_eq] at hx
        exact hx.1
      have hnot : ¬(x.receiver_id = c) := by
        rw [hx1]
        exact fun h => hc h.symm
      simp [hcc, hnot]

/-- Three-message state: two unread for user 1 (from senders 2 and 3) and
one unread for user 5 (from sender 2). -/
def stC8 : State :=
  { users := [], bookings := [],
    messages := [mkMessage 1 2 1 10 MessageStatus.unread,
                 mkMessage 2 3 1 11 MessageStatus.unread,
                 mkMessage 3 2 5 12 MessageStatus.unread], nextId := 4 }

/-- C8 witness: after user 1 bulk-marks the conversation with user 2, the
unread count from sender 3 and the total of user 5 are untouched. -/
theorem c8_witness :
    countUnreadFrom (markConversationRead stC8 1 2 6).2 1 3 =
      countUnreadFrom stC8 1 3 ∧
    getUnreadCount (markConversationRead stC8 1 2 6).2 5 =
      getUnreadCount stC8 5 :=
  ⟨(c8_mark_conversation_read stC8 1 2 6).2.2.1 1 3 (by decide),
   (c8_mark_conversation_read stC8 1 2 6).2.2.2.2 5 (by decide)⟩

/-- C4: the read-marking operations — per-message and bulk — and the
delete cascade touch neither `created_at` nor the status-to-timestamp
coupling of any surviving message: whenever one of them changes a status
it stamps `updated_at` with the operation time, the delete cascade never
changes a status, and a delete survivor keeps its `updated_at` unless the
FK-nulling UPDATE orphaned it. -/
theorem c4_timestamps (st : State) (mid uid a b now : Nat) :
    (∀ m' ∈ (markAsRead st mid uid now).2.messages,
      ∃ m ∈ st.messages, m'.id = m.id ∧ m'.created_at = m.created_at ∧
        (m'.status ≠ m.status → m'.updated_at = now)) ∧
    (∀ m' ∈ (markConversationRead st a b now).2.messages,
      ∃ m ∈ st.messages, m'.id = m.id ∧ m'.created_at = m.created_at ∧
        (m'.status ≠ m.status → m'.updated_at = now)) ∧
    (∀ m' ∈ (deleteMessage st mid uid now).2.messages,
      ∃ m ∈ st.messages, m'.id = m.id ∧ m'.created_at = m.created_at ∧
        m'.status = m.status ∧
        (m'.parent_message_id = m.parent_message_id →
          m'.updated_at = m.updated_at)) := by
  refine ⟨?_, ?_, ?_⟩
  · intro m' hm'
    cases hg : getMessage st mid with
    | none =>
      simp [markAsRead, hg] at hm'
      exact ⟨m', hm', rfl, rfl, fun hcon => absurd rfl hcon⟩
    | some m0 =>
      by_cases hr : m0.receiver_id = uid
      · simp [markAsRead, hg, hr] at hm'
        rcases mem_updateFirst _ _ _ _ hm' with h | ⟨m1, hm1, rfl⟩
        · exact ⟨m', h, rfl, rfl, fun hcon => absurd rfl hcon⟩
        · refine ⟨m1, hm1, ?_, ?_, ?_⟩ <;>
            by_cases hs : m1.status = MessageStatus.read <;>
              simp [readStamp, hs]
      · simp [markAsRead, hg, hr] at hm'
        exact ⟨m', hm', rfl, rfl, fun hcon => absurd rfl hcon⟩
  · intro m' hm'
    simp only [markConversationRead] at hm'
    rcases List.mem_map.mp hm' with ⟨m1, hm1, rfl⟩
    refine ⟨m1, hm1, ?_, ?_, ?_⟩ <;>
      cases hc : conversationUnread a b m1 <;> simp [hc]
  · intro m' hm'
    cases hg : getMessage st mid with
    | none =>
      simp [deleteMessage, hg] at hm'
      exact ⟨m', hm', rfl, rfl, rfl, fun _ => rfl⟩
    | some m0 =>
      by_cases hr : m0.sender_id = uid ∨ m0.receiver_id = uid
      · simp [deleteMessage, hg, hr] at hm'
        rcases hm' with ⟨m1, hm1, rfl⟩
        have hm1' : m1 ∈ st.messages := List.mem_of_mem_eraseP hm1
        refine ⟨m1, hm1', ?_, ?_, ?_, ?_⟩ <;>
          by_cases hp : m1.parent_message_id = some mid <;> simp [hp]
      · simp [deleteMessage, hg, hr] at hm'
        exact ⟨m', hm', rfl, rfl, rfl, fun _ => rfl⟩

/-- C4 witness: message 1 of `stC2` after being marked read by its
receiver matches its pre-state row on id and `created_at`, with
`updated_at` stamped by the status change. -/
theorem c4_witness :
    ∃ m ∈ stC2.messages,
      ({ mkMessage 1 5 2 10 MessageStatus.unread with
          status := MessageStatus.read, updated_at := 9 } : Message).id = m.id ∧
      ({ mkMessage 1 5 2 10 MessageStatus.unread with
          status := MessageStatus.read, updated_at := 9 } : Message).created_at =
        m.created_at ∧
      (({ mkMessage 1 5 2 10 MessageStatus.unread with
          status := MessageStatus.read, updated_at := 9 } : Message).status ≠
          m.status →
        ({ mkMessage 1 5 2 10 MessageStatus.unread with
            status := MessageStatus.read, updated_at := 9 } : Message).updated_at =
          9) :=
  (c4_timestamps stC2 1 2 1 5 9).1
    { mkMessage 1 5 2 10 MessageStatus.unread with
      status := MessageStatus.read, updated_at := 9 } (by decide)

/-- C5 (amended): as long as the user's total message count (sent or
received) fits inside the default page size of 100, the unread counter
agrees with counting unread received messages in the default
`listForUser` page. -/
theorem c5_unread_count_matches_default_page (st : State) (uid : Nat)
    (h : st.messages.countP
        (fun m => decide (m.sender_id = uid ∨ m.receiver_id = uid)) ≤ 100) :
    getUnreadCount st uid =
      (getUserMessages st uid 0 100).countP
        (fun m => decide (m.receiver_id = uid ∧ m.status = MessageStatus.unread)) := by
  have key : getUserMessages st uid 0 100 =
      (st.messages.filter
        (fun m => decide (m.sender_id = uid ∨ m.receiver_id = uid))).insertionSort
          createdDesc := by
    show ((((st.messages.filter
        (fun m => decide (m.sender_id = uid ∨ m.receiver_id = uid))).insertionSort
          createdDesc).drop 0).take 100) = _
    rw [List.drop_zero]
    refine List.take_of_length_le ?_
    rw [(List.perm_insertionSort createdDesc _).length_eq,
        ← List.countP_eq_length_filter]
    exact h
  rw [key, List.Perm.countP_eq _ (List.perm_insertionSort createdDesc _),
      List.countP_filter]
  show st.messages.countP
      (fun m => decide (m.receiver_id = uid ∧ m.status = MessageStatus.unread)) = _
  refine List.countP_congr ?_
  intro x _
  simp only [Bool.and_eq_true, decide_eq_true_eq]
  constructor
  · intro h1
    exact ⟨h1, Or.inr h1.1⟩
  · rintro ⟨h1, _⟩
    exact h1

/-- Hundred-and-one unread messages addressed to user 1, newest first. -/
def stC5big : State :=
  { users := [], bookings := [],
    messages := (List.range 101).map
      (fun i => mkMessage (i + 1) 2 1 (1000 - i) MessageStatus.unread),
    nextId := 200 }

set_option maxRecDepth 100000 in
/-- C5 counterexample to the claim as stated: with 101 unread received
messages, the default page holds only 100 of them, so the two read paths
disagree. -/
theorem c5_counterexample :
    getUnreadCount stC5big 1 ≠
      (getUserMessages stC5big 1 0 100).countP
        (fun m => decide (m.receiver_id = 1 ∧ m.status = MessageStatus.unread)) := by
  decide

/-- C5 witness: one message, well inside the first page. -/
theorem c5_witness :
    getUnreadCount stC2 2 =
      (getUserMessages stC2 2 0 100).countP
        (fun m => decide (m.receiver_id = 2 ∧ m.status = MessageStatus.unread)) :=
  c5_unread_count_matches_default_page stC2 2 (by decide)

end Prototype
